import Mathlib

/-!
Verification development for the monument-recognition application
(`src/app.py`).  The Python program is a thin orchestration layer over
three external services; we embed its pure control flow shallowly:

* external HTTP calls are represented by an explicit outcome value
  (`PostOutcome`, `TranslateOutcome`, or a text-to-speech function
  returning `Except`) passed to each operation — the outcome stands for
  whatever the external service did on that invocation;
* Python exceptions caught by the surrounding `try`/`except` blocks are
  represented by the corresponding error branches of those outcomes;
* byte strings are `List Nat`; PIL images are modelled by their
  metadata (`PILImage`), with decoding/encoding supplied by a `Codec`;
* `st.cache_data` memoisation is modelled by `cachedCall` over an
  association list; parameters whose Python name begins with an
  underscore (`_monument_hash`, `_image_hash`, `_text_hash`) are
  excluded from the memoisation key, exactly as Streamlit excludes
  them, so the key is the remaining argument tuple;
* `st.session_state` is the record `SessionState`, and each Streamlit
  button handler is a function from session state to session state
  (plus, where the script calls `st.error`, the inline error message it
  would display, and, where relevant, a flag recording whether the
  external language-model endpoint was contacted).
-/

namespace Monument

/-- Constants from `src/app.py` lines 36-38. -/
def ALLOWED_EXTENSIONS : List String := ["png", "jpg", "jpeg"]

/-- Maximum accepted payload size in bytes (5 MiB), `src/app.py` line 37. -/
def MAX_FILE_SIZE : Nat := 5 * 1024 * 1024

/-- Maximum width/height after resizing, `src/app.py` line 38. -/
def MAX_IMAGE_DIMENSION : Nat := 800

/-- Characters after the LAST dot of the list, or `none` when the list
contains no dot.  This is `filename.rsplit(chr(46), 1)[1]` guarded by the
`chr(46) in filename` test of `allowed_file` (`src/app.py` line 41). -/
def lastExtAux : List Char → Option (List Char)
  | [] => none
  | c :: rest =>
    match lastExtAux rest with
    | some e => some e
    | none => if c = '.' then some rest else none

/-- Translation of `allowed_file` (`src/app.py` lines 40-41):
a dot must occur in the filename and the lower-cased text after the last
dot must be one of the allowed extensions. -/
def allowed_file (filename : String) : Bool :=
  match lastExtAux filename.data with
  | none => false
  | some ext => ALLOWED_EXTENSIONS.contains (String.mk (ext.map Char.toLower))

/-- Image format as detected by PIL (`img.format`): the code only
distinguishes JPEG, PNG and everything else. -/
inductive ImgFormat where
  | JPEG
  | PNG
  | other
deriving DecidableEq

/-- A decoded PIL image, abstracted to the metadata the program
inspects: pixel dimensions and detected format. -/
structure PILImage where
  width : Nat
  height : Nat
  format : ImgFormat
deriving DecidableEq

/-- An image codec standing for the PIL operations inside the `try`
block of `compress_image`, each of which can raise:
`decode` returns `none` when `Image.open` raises on the bytes;
`loadOk` is false when reading the pixel data raises — `Image.open` is
lazy, so a corrupt body surfaces only when `img.thumbnail` first loads
the pixels; the two encoders stand for
`img.save(..., format=JPEG, quality=85, optimize=True)` and
`img.save(..., format=PNG, optimize=True)` and return `none` when the
save raises (for example OSError cannot write mode P as JPEG, for a
palette image such as a GIF uploaded under an allowed extension). -/
structure Codec where
  decode : List Nat → Option PILImage
  loadOk : List Nat → Bool
  encodeJPEG : PILImage → Option (List Nat)
  encodePNG : PILImage → Option (List Nat)

/-- A codec whose encoders round-trip whenever they succeed: if saving
an image as JPEG (resp. PNG) produced bytes, decoding those bytes
yields the same dimensions with the saved format. -/
def GoodCodec (c : Codec) : Prop :=
  (∀ img out, c.encodeJPEG img = some out →
      c.decode out = some { img with format := ImgFormat.JPEG }) ∧
  (∀ img out, c.encodePNG img = some out →
      c.decode out = some { img with format := ImgFormat.PNG })

/-- Rounding used by PIL `Image.thumbnail` for the new width when the
height is clamped to 800: the candidates are the floor and the ceiling
of `num / den`, the one whose ratio is nearer the original aspect ratio
is taken (floor on ties), and the result is clamped to be at least 1. -/
def round_aspect_x (num den : Nat) : Nat :=
  let f := num / den
  let c := (num + den - 1) / den
  max (if num - f * den ≤ c * den - num then f else c) 1

/-- Rounding used by PIL `Image.thumbnail` for the new height when the
width is clamped to 800: as `round_aspect_x` but the comparison key is
the distance between the original aspect ratio and `800 / n`, with the
candidate 0 mapped to key 0 (and the result then clamped to 1). -/
def round_aspect_y (num den : Nat) : Nat :=
  let f := num / den
  let c := (num + den - 1) / den
  if f = 0 then 1
  else max (if (num - f * den) * c ≤ (c * den - num) * f then f else c) 1

/-- Translation of `img.thumbnail((800, 800), LANCZOS)` (`src/app.py`
line 50), following PIL: no change when both dimensions already fit;
otherwise the larger dimension is clamped to 800 and the other one is
obtained by aspect-preserving rounding. -/
def thumbnail (img : PILImage) : PILImage :=
  if img.width ≤ MAX_IMAGE_DIMENSION ∧ img.height ≤ MAX_IMAGE_DIMENSION then img
  else if img.width ≤ img.height then
    { img with width := round_aspect_x (MAX_IMAGE_DIMENSION * img.width) img.height,
               height := MAX_IMAGE_DIMENSION }
  else
    { img with width := MAX_IMAGE_DIMENSION,
               height := round_aspect_y (MAX_IMAGE_DIMENSION * img.height) img.width }

/-- The resize-and-save step of `compress_image` (`src/app.py`
lines 47-58): pick the output format (JPEG unless the detected format
is JPEG or PNG), resize with `thumbnail`, save; `none` when the save
raises. -/
def compressSave (codec : Codec) (img : PILImage) : Option (List Nat) :=
  let img_format := if img.format = ImgFormat.JPEG ∨ img.format = ImgFormat.PNG
                    then img.format else ImgFormat.JPEG
  let resized := thumbnail img
  if img_format = ImgFormat.JPEG then codec.encodeJPEG resized else codec.encodePNG resized

/-- Translation of `compress_image` (`src/app.py` lines 43-61): decode,
resize, re-encode.  The `except` branch returns the original bytes
unchanged whenever any step of the `try` block raises: `Image.open`
(decode is `none`), the pixel load forced by `img.thumbnail` (`loadOk`
is false), or `img.save` (the encoder returns `none`). -/
def compress_image (codec : Codec) (image_bytes : List Nat) : List Nat :=
  match codec.decode image_bytes with
  | none => image_bytes
  | some img =>
    if codec.loadOk image_bytes then
      match compressSave codec img with
      | some out => out
      | none => image_bytes
    else image_bytes

/-- The `message` object of one completion choice: `content` is `none`
when the key is absent (so `.get` falls back). -/
structure ChatMessage where
  content : Option String
deriving DecidableEq

/-- One element of the `choices` list of the JSON response. -/
structure ChatChoice where
  message : Option ChatMessage
deriving DecidableEq

/-- The JSON body of a chat-completions response, as far as the program
reads it: `choices` is `none` when the key is absent. -/
structure ChatBody where
  choices : Option (List ChatChoice)
deriving DecidableEq

/-- Outcome of `requests.post` on the language-model endpoint:
either the call itself raised (network error), or a response arrived
with a status code and a body whose JSON decoding may itself raise. -/
inductive PostOutcome where
  | exn (msg : String)
  | resp (status : Nat) (body : Except String ChatBody)

/-- Message of the `requests.HTTPError` raised by
`response.raise_for_status()` for an error status code. -/
def raise_for_status_msg (status : Nat) : String :=
  if status < 500 then toString status ++ " Client Error" else toString status ++ " Server Error"

/-- Translation of the Python chain
`result.get(choices, [empty])[0].get(message, empty).get(content, fallback)`
(`src/app.py` line 88 and line 135): a missing `choices` key defaults to a
one-element list holding an empty object, so indexing succeeds and the
fallback string is returned; an empty `choices` list makes `[0]` raise
`IndexError`. -/
def extract_info (result : ChatBody) (fallback : String) : Except String String :=
  match result.choices with
  | none => Except.ok fallback
  | some [] => Except.error ("list index out of range")
  | some (choice :: _) =>
    match choice.message with
    | none => Except.ok fallback
    | some msg =>
      match msg.content with
      | none => Except.ok fallback
      | some text => Except.ok text

/-- Translation of `process_monument_name` (`src/app.py` lines 63-93).
The request payload (prompt text) does not influence the returned value
and is subsumed by the `api` outcome; every exception escaping the
`try` block is returned as an `Error: `-prefixed string. -/
def process_monument_name (api : PostOutcome) (_monument_hash monument_name : String) : String :=
  match api with
  | PostOutcome.exn e => "Error: " ++ e
  | PostOutcome.resp status body =>
    if 400 ≤ status ∧ status < 600 then
      "Error: " ++ raise_for_status_msg status
    else
      match body with
      | Except.error e => "Error: " ++ e
      | Except.ok result =>
        match extract_info result ("Sorry, no details found for this monument.") with
        | Except.ok info => info
        | Except.error e => "Error: " ++ e

/-- Translation of `process_image` (`src/app.py` lines 95-140): compress,
reject when the compressed payload exceeds `MAX_FILE_SIZE` (before any
network activity), otherwise call the endpoint and extract the answer
exactly as for names (base64 embedding of the payload does not affect
the result and is subsumed by the `api` outcome).  The second component
records whether `requests.post` was executed. -/
def process_image (codec : Codec) (api : PostOutcome) (_image_hash : String)
    (image_bytes : List Nat) : String × Bool :=
  let compressed_bytes := compress_image codec image_bytes
  if MAX_FILE_SIZE < compressed_bytes.length then
    ("Error: Compressed file too large. Max size is 5MB", false)
  else
    match api with
    | PostOutcome.exn e => ("Error: " ++ e, true)
    | PostOutcome.resp status body =>
      if 400 ≤ status ∧ status < 600 then
        ("Error: " ++ raise_for_status_msg status, true)
      else
        match body with
        | Except.error e => ("Error: " ++ e, true)
        | Except.ok result =>
          match extract_info result ("Sorry, no details found in the response.") with
          | Except.ok info => (info, true)
          | Except.error e => ("Error: " ++ e, true)

/-- Outcome of `GoogleTranslator(source=en, target=kn).translate(text)`:
the call either raises or returns an optional string (`None` is modelled
by `result none`). -/
inductive TranslateOutcome where
  | exn (msg : String)
  | result (translated : Option String)

/-- Translation of `translate_to_kannada` (`src/app.py` lines 142-152):
a raised exception or a falsy result (`None` or the empty string) yields
a `Translation failed: ` string, otherwise the translated text. -/
def translate_to_kannada (tr : TranslateOutcome) (text : String) : String :=
  match tr with
  | TranslateOutcome.exn e => "Translation failed: " ++ e
  | TranslateOutcome.result none => "Translation failed: No output from translator."
  | TranslateOutcome.result (some t) =>
    if t = "" then "Translation failed: No output from translator." else t

/-- Translation of `generate_speech` (`src/app.py` lines 154-164): the
`gtts` argument stands for the gTTS engine producing the mp3 bytes for a
(text, language) pair or raising; on success the bytes are returned, on
any exception the function returns `None`, i.e. `none`.  The leading
hash argument is unused, as in the source. -/
def generate_speech (gtts : String → String → Except String (List Nat))
    (_text_hash text lang : String) : Option (List Nat) :=
  match gtts text lang with
  | Except.ok audio => some audio
  | Except.error _ => none

/-- Lookup in the memoisation table of `st.cache_data`. -/
def cacheLookup {κ α : Type} [DecidableEq κ] : List (κ × α) → κ → Option α
  | [], _ => none
  | (k, v) :: rest, key => if k = key then some v else cacheLookup rest key

/-- One invocation of an `st.cache_data`-decorated function: on a key
hit the stored value is returned and the compute function is NOT run;
on a miss the compute function runs once and its value is stored.  The
third component records whether the compute function ran. -/
def cachedCall {κ α : Type} [DecidableEq κ] (f : κ → α) (cache : List (κ × α)) (key : κ) :
    α × List (κ × α) × Bool :=
  match cacheLookup cache key with
  | some v => (v, cache, false)
  | none => (f key, (key, f key) :: cache, true)

/-- A sequence of invocations of a cached function, returning for each
call its key and whether the compute function ran. -/
def runCalls {κ α : Type} [DecidableEq κ] (f : κ → α) :
    List (κ × α) → List κ → List (κ × Bool)
  | _, [] => []
  | cache, key :: rest =>
    let r := cachedCall f cache key
    (key, r.2.2) :: runCalls f r.2.1 rest

/-- Number of calls in a trace that ran the compute function for `key`. -/
def computeCount {κ : Type} [DecidableEq κ] (key : κ) (trace : List (κ × Bool)) : Nat :=
  (trace.filter (fun e => decide (e.1 = key) && e.2)).length

/-- The `st.cache_data`-decorated `process_monument_name` as invoked on
`src/app.py` line 198: Streamlit excludes the underscore-prefixed
`_monument_hash` parameter from the memoisation key, so the key is
`monument_name` alone. -/
def cached_process_monument_name (api : PostOutcome) (cache : List (String × String))
    (monument_hash monument_name : String) : String × List (String × String) × Bool :=
  cachedCall (fun nm => process_monument_name api monument_hash nm) cache monument_name

/-- The value of the radio selector on `src/app.py` line 171. -/
inductive InputMethod where
  | enterName
  | uploadImage
deriving DecidableEq

/-- The `st.session_state` fields the program uses (`src/app.py`
lines 174-179). -/
structure SessionState where
  monument_info : Option String
  translated_text : Option String
  audio_kannada : Option (List Nat)
  audio_english : Option (List Nat)
  last_input_method : Option InputMethod
deriving DecidableEq

/-- Session state created on first interaction (`src/app.py` 174-179). -/
def initSession : SessionState :=
  { monument_info := none, translated_text := none, audio_kannada := none,
    audio_english := none, last_input_method := none }

/-- Translation of the input-method change guard (`src/app.py`
lines 182-187): when the stored method differs from the selector, all
four derived fields are cleared and the stored method is updated. -/
def methodChangeReset (input_method : InputMethod) (s : SessionState) : SessionState :=
  if s.last_input_method ≠ some input_method then
    { monument_info := none, translated_text := none, audio_kannada := none,
      audio_english := none, last_input_method := some input_method }
  else s

/-- Translation of the name-submission handler (`src/app.py`
lines 193-203): with a non-empty (truthy) name and the button clicked,
the description is computed and stored while the other three derived
fields are cleared. -/
def nameSubmitHandler (api : PostOutcome) (sha : String → String)
    (s : SessionState) (monument_name : String) : SessionState :=
  if monument_name ≠ "" then
    let monument_hash := sha monument_name
    let result := process_monument_name api monument_hash monument_name
    { monument_info := some result, translated_text := none, audio_kannada := none,
      audio_english := none, last_input_method := some InputMethod.enterName }
  else s

/-- Translation of the image-upload handler (`src/app.py`
lines 209-224) for an uploaded file with the analyze button clicked:
a disallowed filename is rejected with `st.error` before anything else;
otherwise `process_image` runs and the session is refilled.  The second
component records whether the language-model endpoint was contacted and
the third the inline error message, if any. -/
def imageUploadHandler (codec : Codec) (api : PostOutcome) (shaB : List Nat → String)
    (s : SessionState) (filename : String) (image_bytes : List Nat) :
    SessionState × Bool × Option String :=
  if allowed_file filename = false then
    (s, false, some ("Invalid file type. Only PNG, JPG, JPEG allowed."))
  else
    let image_hash := shaB image_bytes
    let r := process_image codec api image_hash image_bytes
    ({ monument_info := some r.1, translated_text := none, audio_kannada := none,
       audio_english := none, last_input_method := some InputMethod.uploadImage }, r.2, none)

/-- Translation of the English-narration button handler (`src/app.py`
lines 227-239); the button exists only when `monument_info` is truthy
(a non-empty string).  On an absent speech result the state is
unchanged and the `st.error` message is returned. -/
def englishNarrationHandler (gtts : String → String → Except String (List Nat))
    (sha : String → String) (s : SessionState) : SessionState × Option String :=
  match s.monument_info with
  | some info =>
    if info ≠ "" then
      let text_hash := sha info
      match generate_speech gtts text_hash info "en" with
      | some audio_english => ({ s with audio_english := some audio_english }, none)
      | none => (s, some ("English narration generation failed."))
    else (s, none)
  | none => (s, none)

/-- Translation of the translate button handler (`src/app.py`
lines 246-249); the button exists only when `monument_info` is truthy. -/
def translateHandler (tr : TranslateOutcome) (s : SessionState) : SessionState :=
  match s.monument_info with
  | some info =>
    if info ≠ "" then
      { s with translated_text := some (translate_to_kannada tr info) }
    else s
  | none => s

/-- Translation of the Kannada-narration button handler (`src/app.py`
lines 256-263); the button exists only when both `monument_info` and
`translated_text` are truthy, and the speech engine is applied to the
TRANSLATED text. -/
def kannadaNarrationHandler (gtts : String → String → Except String (List Nat))
    (sha : String → String) (s : SessionState) : SessionState × Option String :=
  match s.monument_info with
  | some info =>
    if info ≠ "" then
      match s.translated_text with
      | some t =>
        if t ≠ "" then
          let text_hash := sha t
          match generate_speech gtts text_hash t "kn" with
          | some audio_kannada => ({ s with audio_kannada := some audio_kannada }, none)
          | none => (s, some ("Kannada narration generation failed."))
        else (s, none)
      | none => (s, none)
    else (s, none)
  | none => (s, none)

/-- Boolean test for a string beginning with a given text, via the
underlying character lists. -/
def beginsWith (pre s : String) : Bool :=
  pre.data.isPrefixOf s.data

/-- Failure of the Vision/Language adapter call, as enumerated by the
specification: a network error, an HTTP error status (the range on
which `raise_for_status` raises), or a malformed (non-JSON) body. -/
def adapterFailure : PostOutcome → Prop
  | PostOutcome.exn _ => True
  | PostOutcome.resp status body =>
    (400 ≤ status ∧ status < 600) ∨ ∃ e, body = Except.error e

/-- Concrete executable codec used to evaluate the pipeline on closed
inputs: an image is encoded as a three-element list
`[format tag, width, height]`. -/
def tagFormat (t : Nat) : ImgFormat :=
  if t = 0 then ImgFormat.JPEG else if t = 1 then ImgFormat.PNG else ImgFormat.other

/-- Format tag for `toyCodec` encoding. -/
def formatTag : ImgFormat → Nat
  | ImgFormat.JPEG => 0
  | ImgFormat.PNG => 1
  | ImgFormat.other => 2

/-- Decoder of the concrete test codec. -/
def toyDecode : List Nat → Option PILImage
  | [t, w, h] => if t ≤ 2 then some { width := w, height := h, format := tagFormat t } else none
  | _ => none

/-- The concrete test codec: loading and saving always succeed. -/
def toyCodec : Codec :=
  { decode := toyDecode,
    loadOk := fun _ => true,
    encodeJPEG := fun img => some [0, img.width, img.height],
    encodePNG := fun img => some [1, img.width, img.height] }

/-- A concrete codec whose JPEG save raises on images of a third
format (tag 2), as PIL raises OSError cannot write mode P as JPEG when
a palette image (for example a GIF uploaded under an allowed
extension) is re-encoded as JPEG. -/
def toyCodecP : Codec :=
  { decode := toyDecode,
    loadOk := fun _ => true,
    encodeJPEG := fun img =>
      if img.format = ImgFormat.other then none else some [0, img.width, img.height],
    encodePNG := fun img => some [1, img.width, img.height] }

/-- Concrete outcome: HTTP 500 with a JSON body lacking choices. -/
def api500 : PostOutcome := PostOutcome.resp 500 (Except.ok { choices := none })

/-- Concrete speech engine that always succeeds with the clip `[7]`. -/
def gttsOk7 : String → String → Except String (List Nat) := fun _ _ => Except.ok [7]

/-- Concrete speech engine that always raises. -/
def gttsBoom : String → String → Except String (List Nat) := fun _ _ => Except.error ("boom")

/-- Concrete stand-in for the SHA-256 hex digest of a string. -/
def shaConst : String → String := fun _ => "h"

/-- Concrete stand-in for the SHA-256 hex digest of a byte string. -/
def shaBConst : List Nat → String := fun _ => "h"

/-- Session holding the error string produced by `api500`. -/
def sessionErr : SessionState :=
  { monument_info := some ("Error: 500 Server Error"), translated_text := none,
    audio_kannada := none, audio_english := none,
    last_input_method := some InputMethod.enterName }

/-- Session with every field populated. -/
def sessionFull : SessionState :=
  { monument_info := some ("old"), translated_text := some ("old translation"),
    audio_kannada := some [1], audio_english := some [2],
    last_input_method := some InputMethod.enterName }

/-- Session holding a successful description. -/
def sessionInfo : SessionState :=
  { monument_info := some ("A monument."), translated_text := none, audio_kannada := none,
    audio_english := none, last_input_method := some InputMethod.enterName }

/-- Session holding a description and its translation. -/
def sessionTrans : SessionState :=
  { monument_info := some ("A monument."), translated_text := some ("kn text"),
    audio_kannada := none, audio_english := none,
    last_input_method := some InputMethod.enterName }

/-- A byte string one byte above the 5 MiB ceiling, not decodable. -/
def bigBytes : List Nat := List.replicate (MAX_FILE_SIZE + 1) 0

theorem computeCount_cons {κ : Type} [DecidableEq κ] (key k : κ) (b : Bool)
    (tr : List (κ × Bool)) :
    computeCount key ((k, b) :: tr) = (if k = key ∧ b = true then 1 else 0) + computeCount key tr := by
  by_cases h : k = key <;> cases b <;> simp [computeCount, List.filter_cons, h, Nat.add_comm]

theorem computeCount_runCalls_eq_zero {κ α : Type} [DecidableEq κ] (f : κ → α) (key : κ) :
    ∀ (keys : List κ) (cache : List (κ × α)),
      (cacheLookup cache key).isSome = true →
      computeCount key (runCalls f cache keys) = 0 := by
  intro keys
  induction keys with
  | nil => intro cache _; rfl
  | cons k ks ih =>
    intro cache h
    cases hl : cacheLookup cache k with
    | some v =>
      simp [runCalls, cachedCall, hl, computeCount_cons]
      exact ih cache h
    | none =>
      have hk : k ≠ key := by
        intro e; subst e; rw [hl] at h; simp at h
      simp [runCalls, cachedCall, hl, computeCount_cons, hk]
      apply ih
      simpa [cacheLookup, hk] using h

theorem computeCount_runCalls_le_one {κ α : Type} [DecidableEq κ] (f : κ → α) (key : κ) :
    ∀ (keys : List κ) (cache : List (κ × α)),
      computeCount key (runCalls f cache keys) ≤ 1 := by
  intro keys
  induction keys with
  | nil => intro cache; exact Nat.zero_le 1
  | cons k ks ih =>
    intro cache
    cases hl : cacheLookup cache k with
    | some v =>
      simp [runCalls, cachedCall, hl, computeCount_cons]
      exact ih cache
    | none =>
      by_cases hk : k = key
      · subst hk
        have h0 : computeCount k (runCalls f ((k, f k) :: cache) ks) = 0 := by
          apply computeCount_runCalls_eq_zero
          simp [cacheLookup]
        simp [runCalls, cachedCall, hl, computeCount_cons, h0]
      · simp [runCalls, cachedCall, hl, computeCount_cons, hk]
        exact ih _

theorem cacheLookup_cachedCall_self {κ α : Type} [DecidableEq κ] (f : κ → α)
    (cache : List (κ × α)) (key : κ) :
    cacheLookup (cachedCall f cache key).2.1 key = some (cachedCall f cache key).1 := by
  cases hl : cacheLookup cache key with
  | some v => simp [cachedCall, hl]
  | none => simp [cachedCall, hl, cacheLookup]

theorem cachedCall_idem {κ α : Type} [DecidableEq κ] (f : κ → α)
    (cache : List (κ × α)) (key : κ) :
    cachedCall f (cachedCall f cache key).2.1 key
      = ((cachedCall f cache key).1, (cachedCall f cache key).2.1, false) := by
  have h := cacheLookup_cachedCall_self f cache key
  set r := cachedCall f cache key with hr
  simp [cachedCall, h]

theorem beginsWith_append_left (p q t : String) (h : beginsWith p q = true) :
    beginsWith p (q ++ t) = true := by
  have hd : (q ++ t).data = q.data ++ t.data := by cases q; cases t; rfl
  rw [beginsWith] at h
  rw [beginsWith, hd]
  rw [ List.isPrefixOf_iff_prefix] at h ⊢
  exact h.trans (List.prefix_append _ _)

theorem ne_empty_of_beginsWith (p s : String) (hp : p.data ≠ []) (h : beginsWith p s = true) :
    s ≠ "" := by
  intro hs
  subst hs
  cases hd : p.data with
  | nil => exact hp hd
  | cons c cs => rw [beginsWith, hd] at h; simp [List.isPrefixOf] at h

theorem process_monument_name_failure_error (api : PostOutcome) (mh name : String)
    (hfail : adapterFailure api) :
    beginsWith ("Error:") (process_monument_name api mh name) = true := by
  cases api with
  | exn e =>
    exact beginsWith_append_left _ _ _ (by decide)
  | resp status body =>
    rcases hfail with h4 | ⟨e, he⟩
    · simp [process_monument_name, h4]
      exact beginsWith_append_left _ _ _ (by decide)
    · subst he
      by_cases h4 : 400 ≤ status ∧ status < 600 <;>
        simp [process_monument_name, h4] <;>
        exact beginsWith_append_left _ _ _ (by decide)

/-- C2: every Vision/Language adapter failure (network error, HTTP
error status, malformed body) is returned as a string beginning with
Error: rather than raised; the session then holds that string and the
downstream translate and narrate handlers run on it exactly as on a
successful description; Translation adapter failures are likewise plain
strings with the Translation failed: marker. -/

theorem ceil_div_spec (num den : Nat) (hden : 0 < den) :
    (num + den - 1) / den = num / den + (if num % den = 0 then 0 else 1) := by
  have e1 := Nat.div_add_mod num den
  by_cases hr : num % den = 0
  · have h2 : num + den - 1 = den * (num / den) + (den - 1) := by omega
    have h3 : (den - 1) / den = 0 := Nat.div_eq_of_lt (by omega)
    rw [h2, Nat.mul_add_div hden, h3]
    simp [hr]
  · have hrlt : num % den < den := Nat.mod_lt _ hden
    have h2 : num + den - 1 = den * (num / den) + (num % den + den - 1) := by omega
    have h3 : (num % den + den - 1) / den = 1 := by
      apply Nat.div_eq_of_lt_le <;> omega
    rw [h2, Nat.mul_add_div hden, h3]
    simp [hr]

theorem ceil_div_of_floor_zero (num den : Nat) (hnum : 0 < num) (hden : 0 < den)
    (h0 : num / den = 0) : (num + den - 1) / den = 1 := by
  have e1 := Nat.div_add_mod num den
  rw [h0] at e1
  simp at e1
  have hM : num % den ≠ 0 := by omega
  rw [ceil_div_spec num den hden, h0]
  simp [hM]

theorem ceil_div_cases (num den : Nat) (hden : 0 < den) :
    (num + den - 1) / den = num / den ∨ (num + den - 1) / den = num / den + 1 := by
  rw [ceil_div_spec num den hden]
  by_cases hM : num % den = 0 <;> simp [hM]

theorem round_aspect_x_mem (num den : Nat) (hnum : 0 < num) (hden : 0 < den) :
    round_aspect_x num den = num / den ∨ round_aspect_x num den = (num + den - 1) / den := by
  have hcases := ceil_div_cases num den hden
  have hzero := ceil_div_of_floor_zero num den hnum hden
  obtain ⟨F, hgF⟩ : ∃ F, num / den = F := ⟨_, rfl⟩
  obtain ⟨C, hgC⟩ : ∃ C, (num + den - 1) / den = C := ⟨_, rfl⟩
  rw [hgF, hgC] at hcases
  rw [hgF, hgC] at hzero
  simp only [round_aspect_x, hgF, hgC]
  by_cases h0 : F = 0
  · have hC1 := hzero h0
    split <;> omega
  · rcases hcases with hc | hc <;> (split <;> omega)

theorem round_aspect_y_mem (num den : Nat) (hnum : 0 < num) (hden : 0 < den) :
    round_aspect_y num den = num / den ∨ round_aspect_y num den = (num + den - 1) / den := by
  have hcases := ceil_div_cases num den hden
  have hzero := ceil_div_of_floor_zero num den hnum hden
  obtain ⟨F, hgF⟩ : ∃ F, num / den = F := ⟨_, rfl⟩
  obtain ⟨C, hgC⟩ : ∃ C, (num + den - 1) / den = C := ⟨_, rfl⟩
  rw [hgF, hgC] at hcases
  rw [hgF, hgC] at hzero
  simp only [round_aspect_y, hgF, hgC]
  by_cases h0 : F = 0
  · have hC1 := hzero h0
    rw [if_pos h0]
    omega
  · rw [if_neg h0]
    rcases hcases with hc | hc <;> (split <;> omega)

theorem round_aspect_le (n num den B : Nat) (hden : 0 < den)
    (hmem : n = num / den ∨ n = (num + den - 1) / den) (hB : num ≤ den * B) :
    n ≤ B := by
  have h1 : num / den ≤ B := by
    have h2 : num / den ≤ den * B / den := Nat.div_le_div_right hB
    rwa [Nat.mul_div_cancel_left _ hden] at h2
  have e1 := Nat.div_add_mod num den
  rcases hmem with h | h
  · omega
  · subst h
    rw [ceil_div_spec num den hden]
    by_cases hM : num % den = 0
    · simp [hM]; omega
    · simp only [hM, ite_false, if_neg]
      have h2 : den * (num / den) < den * B := by omega
      have h3 := Nat.lt_of_mul_lt_mul_left h2
      omega

theorem round_aspect_dist (n num den : Nat) (hnum : 0 < num) (hden : 0 < den)
    (hmem : n = num / den ∨ n = (num + den - 1) / den) :
    Nat.dist (n * den) num < den := by
  have e1 := Nat.div_add_mod num den
  have hrlt : num % den < den := Nat.mod_lt _ hden
  have e2 := Nat.div_add_mod (num + den - 1) den
  have hrlt2 : (num + den - 1) % den < den := Nat.mod_lt _ hden
  rcases hmem with h | h <;> subst h <;> rw [Nat.mul_comm] <;> simp [Nat.dist] <;> omega

theorem thumbnail_spec (img : PILImage) (hw : 0 < img.width) (hh : 0 < img.height) :
    (thumbnail img).format = img.format
    ∧ (thumbnail img).width ≤ MAX_IMAGE_DIMENSION
    ∧ (thumbnail img).height ≤ MAX_IMAGE_DIMENSION
    ∧ (thumbnail img).width ≤ img.width
    ∧ (thumbnail img).height ≤ img.height
    ∧ (MAX_IMAGE_DIMENSION < max img.width img.height →
        Nat.dist ((thumbnail img).width * img.height) (img.width * (thumbnail img).height)
          < max img.width img.height)
    ∧ (max img.width img.height ≤ MAX_IMAGE_DIMENSION → thumbnail img = img) := by
  obtain ⟨w, h, fmt⟩ := img
  simp only [MAX_IMAGE_DIMENSION] at *
  by_cases hfit : w ≤ 800 ∧ h ≤ 800
  · have ht : thumbnail ⟨w, h, fmt⟩ = ⟨w, h, fmt⟩ := by
      simp [thumbnail, MAX_IMAGE_DIMENSION, hfit.1, hfit.2]
    rw [ht]
    refine ⟨rfl, hfit.1, hfit.2, Nat.le_refl _, Nat.le_refl _, ?_, fun _ => rfl⟩
    intro hbig
    exact absurd hbig (by omega)
  · by_cases hwh : w ≤ h
    · have h800 : 800 < h := by omega
      have hnum : 0 < 800 * w := by omega
      have ht : thumbnail ⟨w, h, fmt⟩ = ⟨round_aspect_x (800 * w) h, 800, fmt⟩ := by
        simp [thumbnail, MAX_IMAGE_DIMENSION, hfit, hwh]
      have hmem := round_aspect_x_mem (800 * w) h hnum hh
      have hle800 : round_aspect_x (800 * w) h ≤ 800 :=
        round_aspect_le (round_aspect_x (800 * w) h) (800 * w) h 800 hh hmem (by omega)
      have hlew : round_aspect_x (800 * w) h ≤ w :=
        round_aspect_le (round_aspect_x (800 * w) h) (800 * w) h w hh hmem
          (Nat.mul_le_mul_right w (by omega))
      have hdist := round_aspect_dist (round_aspect_x (800 * w) h) (800 * w) h hnum hh hmem
      rw [ht]
      refine ⟨rfl, hle800, Nat.le_refl _, hlew, Nat.le_of_lt h800, ?_, ?_⟩
      · intro hbig
        show Nat.dist (round_aspect_x (800 * w) h * h) (w * 800) < max w h
        have hmax : max w h = h := by omega
        rw [hmax, Nat.mul_comm w 800]
        exact hdist
      · intro hsmall
        exact absurd hsmall (by omega)
    · have h800 : 800 < w := by omega
      have hnum : 0 < 800 * h := by omega
      have ht : thumbnail ⟨w, h, fmt⟩ = ⟨800, round_aspect_y (800 * h) w, fmt⟩ := by
        simp [thumbnail, MAX_IMAGE_DIMENSION, hfit, hwh]
      have hmem := round_aspect_y_mem (800 * h) w hnum hw
      have hle800 : round_aspect_y (800 * h) w ≤ 800 :=
        round_aspect_le (round_aspect_y (800 * h) w) (800 * h) w 800 hw hmem (by omega)
      have hleh : round_aspect_y (800 * h) w ≤ h :=
        round_aspect_le (round_aspect_y (800 * h) w) (800 * h) w h hw hmem
          (Nat.mul_le_mul_right h (by omega))
      have hdist := round_aspect_dist (round_aspect_y (800 * h) w) (800 * h) w hnum hw hmem
      rw [ht]
      refine ⟨rfl, Nat.le_refl _, hle800, Nat.le_of_lt h800, hleh, ?_, ?_⟩
      · intro hbig
        show Nat.dist (800 * h) (w * round_aspect_y (800 * h) w) < max w h
        have hmax : max w h = w := by omega
        rw [hmax, Nat.dist_comm, Nat.mul_comm w (round_aspect_y (800 * h) w)]
        exact hdist
      · intro hsmall
        exact absurd hsmall (by omega)

theorem goodCodec_toy : GoodCodec toyCodec := by
  constructor <;>
    · intro img out h
      cases img
      simp only [toyCodec, Option.some.injEq] at h
      subst h
      rfl

theorem goodCodec_toyP : GoodCodec toyCodecP := by
  constructor
  · intro img out h
    cases img
    simp only [toyCodecP] at h
    split at h
    · exact Option.noConfusion h
    · rw [Option.some.injEq] at h
      subst h
      rfl
  · intro img out h
    cases img
    simp only [toyCodecP, Option.some.injEq] at h
    subst h
    rfl

theorem toyDecode_replicate_big (x n : Nat) : toyDecode (List.replicate (n + 4) x) = none := rfl

theorem compress_image_bigBytes : compress_image toyCodec bigBytes = bigBytes := by
  have hd : toyCodec.decode bigBytes = none := by
    show toyDecode (List.replicate (MAX_FILE_SIZE + 1) 0) = none
    rw [show MAX_FILE_SIZE + 1 = 5242877 + 4 by norm_num [MAX_FILE_SIZE]]
    exact toyDecode_replicate_big 0 5242877
  simp [compress_image, hd]

theorem bigBytes_length : bigBytes.length = MAX_FILE_SIZE + 1 := by
  simp [bigBytes]

/-- C1: for every distinct cache key, the compute function of each
cached operation (description by name, description by image,
translation, speech synthesis) runs at most once over any sequence of
invocations; and a second invocation of the description stage with
identical input returns the previously computed result with the compute
function (hence the external call it contains) not run again. -/
theorem c1_cache_compute_at_most_once :
    (∀ (api : PostOutcome) (mh : String) (cache : List (String × String))
       (names : List String) (key : String),
       computeCount key (runCalls (fun nm => process_monument_name api mh nm) cache names) ≤ 1)
    ∧ (∀ (codec : Codec) (api : PostOutcome) (ih : String)
         (cache : List (List Nat × (String × Bool))) (inputs : List (List Nat)) (key : List Nat),
         computeCount key (runCalls (fun b => process_image codec api ih b) cache inputs) ≤ 1)
    ∧ (∀ (tr : TranslateOutcome) (cache : List (String × String))
         (texts : List String) (key : String),
         computeCount key (runCalls (fun t => translate_to_kannada tr t) cache texts) ≤ 1)
    ∧ (∀ (gtts : String → String → Except String (List Nat)) (th : String)
         (cache : List ((String × String) × Option (List Nat)))
         (reqs : List (String × String)) (key : String × String),
         computeCount key (runCalls (fun p => generate_speech gtts th p.1 p.2) cache reqs) ≤ 1)
    ∧ (∀ (api : PostOutcome) (cache : List (String × String)) (mh name : String),
         (cached_process_monument_name api
             (cached_process_monument_name api cache mh name).2.1 mh name).1
           = (cached_process_monument_name api cache mh name).1
         ∧ (cached_process_monument_name api
             (cached_process_monument_name api cache mh name).2.1 mh name).2.2 = false) := by
  refine ⟨?_, ?_, ?_, ?_, ?_⟩
  · intro api mh cache names key; exact computeCount_runCalls_le_one _ key names cache
  · intro codec api ih cache inputs key; exact computeCount_runCalls_le_one _ key inputs cache
  · intro tr cache texts key; exact computeCount_runCalls_le_one _ key texts cache
  · intro gtts th cache reqs key; exact computeCount_runCalls_le_one _ key reqs cache
  · intro api cache mh name
    unfold cached_process_monument_name
    rw [cachedCall_idem]
    exact ⟨rfl, rfl⟩

/-- C2: every Vision/Language adapter failure (network error, HTTP
error status, malformed body) is returned as a string beginning with
Error: rather than raised; the session then holds that string and the
downstream translate and narrate handlers run on it exactly as on a
successful description; Translation adapter failures are likewise plain
strings with the Translation failed: marker. -/
theorem c2_adapter_failure_treated_as_text (api : PostOutcome) (mh name : String)
    (tr : TranslateOutcome) (gtts : String → String → Except String (List Nat))
    (sha : String → String) (s : SessionState) (a : List Nat) (e text : String)
    (hfail : adapterFailure api)
    (hs : s.monument_info = some (process_monument_name api mh name))
    (hg : gtts (process_monument_name api mh name) "en" = Except.ok a)
    (htr : tr = TranslateOutcome.exn e ∨ tr = TranslateOutcome.result none) :
    beginsWith ("Error:") (process_monument_name api mh name) = true
    ∧ (translateHandler tr s).translated_text
        = some (translate_to_kannada tr (process_monument_name api mh name))
    ∧ (englishNarrationHandler gtts sha s).1.audio_english = some a
    ∧ beginsWith ("Translation failed:") (translate_to_kannada tr text) = true := by
  have hpre := process_monument_name_failure_error api mh name hfail
  have hne : process_monument_name api mh name ≠ "" :=
    ne_empty_of_beginsWith _ _ (by decide) hpre
  refine ⟨hpre, ?_, ?_, ?_⟩
  · simp [translateHandler, hs, hne]
  · simp [englishNarrationHandler, hs, hne, generate_speech, hg]
  · rcases htr with h | h <;> subst h
    · exact beginsWith_append_left _ _ _ (by decide)
    · show beginsWith ("Translation failed:")
          ("Translation failed: No output from translator.") = true
      decide

/-- C6: switching the input method clears all four derived session
fields, and submitting a new name or image clears all derived fields
while storing the fresh description. -/

theorem c2_witness_check :
    adapterFailure api500
    ∧ (beginsWith ("Error:") (process_monument_name api500 ("h") ("Hampi")) = true
      ∧ (translateHandler (TranslateOutcome.result none) sessionErr).translated_text
          = some (translate_to_kannada (TranslateOutcome.result none)
              (process_monument_name api500 ("h") ("Hampi")))
      ∧ (englishNarrationHandler gttsOk7 shaConst sessionErr).1.audio_english = some [7]
      ∧ beginsWith ("Translation failed:")
          (translate_to_kannada (TranslateOutcome.result none) ("any")) = true) :=
  ⟨Or.inl (by decide),
   c2_adapter_failure_treated_as_text api500 ("h") ("Hampi")
     (TranslateOutcome.result none) gttsOk7 shaConst sessionErr [7] ("e") ("any")
     (Or.inl (by decide)) (by decide) rfl (Or.inr rfl)⟩

/-- C3: when the compressed payload still exceeds the 5 MiB ceiling,
the image operation returns the size-validation error string and the
endpoint is never contacted. -/
theorem c3_oversized_compressed_rejected (codec : Codec) (api : PostOutcome) (ih : String)
    (bytes : List Nat) (h : MAX_FILE_SIZE < (compress_image codec bytes).length) :
    process_image codec api ih bytes
      = ("Error: Compressed file too large. Max size is 5MB", false) := by
  simp [process_image, h]

/-- C4: when decoding raises, the normalizer returns the original bytes
unchanged instead of raising or producing an error, and the pipeline
afterwards rejects those bytes only when they exceed the ceiling,
contacting the endpoint otherwise. -/

theorem c3_witness_check :
    MAX_FILE_SIZE < (compress_image toyCodec bigBytes).length
    ∧ process_image toyCodec api500 ("h") bigBytes
      = ("Error: Compressed file too large. Max size is 5MB", false) := by
  have h : MAX_FILE_SIZE < (compress_image toyCodec bigBytes).length := by
    rw [compress_image_bigBytes, bigBytes_length]
    omega
  exact ⟨h, c3_oversized_compressed_rejected toyCodec api500 ("h") bigBytes h⟩

/-- C4: when decoding raises, the normalizer returns the original bytes
unchanged instead of raising or producing an error, and the pipeline
afterwards rejects those bytes only when they exceed the ceiling,
contacting the endpoint otherwise. -/
theorem c4_decode_failure_fail_open (codec : Codec) (api : PostOutcome) (ih : String)
    (bytes : List Nat) (h : codec.decode bytes = none) :
    compress_image codec bytes = bytes
    ∧ (bytes.length ≤ MAX_FILE_SIZE → (process_image codec api ih bytes).2 = true)
    ∧ (MAX_FILE_SIZE < bytes.length →
        process_image codec api ih bytes
          = ("Error: Compressed file too large. Max size is 5MB", false)) := by
  have hc : compress_image codec bytes = bytes := by simp [compress_image, h]
  refine ⟨hc, ?_, ?_⟩
  · intro hle
    have hnot : ¬ MAX_FILE_SIZE < bytes.length := Nat.not_lt.mpr hle
    simp only [process_image, hc, hnot, if_neg, ite_false]
    cases api with
    | exn e => rfl
    | resp status body =>
      by_cases h4 : 400 ≤ status ∧ status < 600
      · simp [h4]
      · cases body with
        | error e => simp [h4]
        | ok result =>
          cases he : extract_info result ("Sorry, no details found in the response.") with
          | ok info => simp [h4, he]
          | error e => simp [h4, he]
  · intro hgt
    simp [process_image, hc, hgt]

theorem c4_witness_check :
    toyCodec.decode [9, 9, 9, 9] = none
    ∧ (compress_image toyCodec [9, 9, 9, 9] = [9, 9, 9, 9]
      ∧ (([9, 9, 9, 9] : List Nat).length ≤ MAX_FILE_SIZE →
          (process_image toyCodec api500 ("h") [9, 9, 9, 9]).2 = true)
      ∧ (MAX_FILE_SIZE < ([9, 9, 9, 9] : List Nat).length →
          process_image toyCodec api500 ("h") [9, 9, 9, 9]
            = ("Error: Compressed file too large. Max size is 5MB", false))) :=
  ⟨rfl, c4_decode_failure_fail_open toyCodec api500 ("h") [9, 9, 9, 9] rfl⟩

/-- C5 as stated is false, through both fail-open paths: the
undecodable byte string `[7]` passes through the normalizer unchanged
and the result does not decode as a JPEG or PNG image at all; and the
decoder-accepted byte string `[2, 900, 900]` (a 900 by 900 image of a
third format whose JPEG re-encode raises, as PIL does for palette
images) also passes through unchanged, decoding to a format that is
neither JPEG nor PNG with both dimensions above 800. -/
theorem c5_counterexample_fail_open :
    (¬ (∃ out : PILImage,
        toyCodec.decode (compress_image toyCodec [7]) = some out
        ∧ (out.format = ImgFormat.JPEG ∨ out.format = ImgFormat.PNG)
        ∧ out.width ≤ MAX_IMAGE_DIMENSION ∧ out.height ≤ MAX_IMAGE_DIMENSION))
    ∧ toyCodecP.decode [2, 900, 900]
        = some { width := 900, height := 900, format := ImgFormat.other }
    ∧ compress_image toyCodecP [2, 900, 900] = [2, 900, 900]
    ∧ ¬ (∃ out : PILImage,
        toyCodecP.decode (compress_image toyCodecP [2, 900, 900]) = some out
        ∧ (out.format = ImgFormat.JPEG ∨ out.format = ImgFormat.PNG)
        ∧ out.width ≤ MAX_IMAGE_DIMENSION ∧ out.height ≤ MAX_IMAGE_DIMENSION) := by
  refine ⟨?_, rfl, rfl, ?_⟩
  · intro hex
    obtain ⟨out, hout, _⟩ := hex
    rw [show toyCodec.decode (compress_image toyCodec [7]) = none from rfl] at hout
    exact Option.noConfusion hout
  · intro hex
    obtain ⟨out, hout, hfmt, _⟩ := hex
    rw [show toyCodecP.decode (compress_image toyCodecP [2, 900, 900])
        = some { width := 900, height := 900, format := ImgFormat.other } from rfl] at hout
    injection hout with h
    subst h
    rcases hfmt with h | h <;> exact ImgFormat.noConfusion h

/-- C5 (amended to inputs on which the whole normalization step
succeeds): for every image input that decodes, whose pixel data loads,
and whose re-encode succeeds, the normalized output decodes as JPEG or
PNG, both output dimensions are at most 800, the output never exceeds
the input dimensions, an input whose larger dimension exceeds 800 is
scaled so that the aspect ratio is preserved within one rounding unit,
and an input that already fits keeps its exact dimensions. -/
theorem c5_normalized_output (codec : Codec) (bytes out_bytes : List Nat) (img : PILImage)
    (hgood : GoodCodec codec) (hdec : codec.decode bytes = some img)
    (hload : codec.loadOk bytes = true)
    (hsave : compressSave codec img = some out_bytes)
    (hw : 0 < img.width) (hh : 0 < img.height) :
    ∃ out : PILImage,
      codec.decode (compress_image codec bytes) = some out
      ∧ (out.format = ImgFormat.JPEG ∨ out.format = ImgFormat.PNG)
      ∧ out.width ≤ MAX_IMAGE_DIMENSION ∧ out.height ≤ MAX_IMAGE_DIMENSION
      ∧ out.width ≤ img.width ∧ out.height ≤ img.height
      ∧ (MAX_IMAGE_DIMENSION < max img.width img.height →
          Nat.dist (out.width * img.height) (img.width * out.height)
            < max img.width img.height)
      ∧ (max img.width img.height ≤ MAX_IMAGE_DIMENSION →
          out.width = img.width ∧ out.height = img.height) := by
  obtain ⟨hfmt, hw8, hh8, hww, hhh, hdist, hsmall⟩ := thumbnail_spec img hw hh
  have hcomp : compress_image codec bytes = out_bytes := by
    simp [compress_image, hdec, hload, hsave]
  cases hfv : img.format with
  | JPEG =>
    simp only [compressSave, hfv] at hsave
    refine ⟨{ thumbnail img with format := ImgFormat.JPEG }, ?_, Or.inl rfl,
      hw8, hh8, hww, hhh, hdist, ?_⟩
    · rw [hcomp]
      exact hgood.1 _ _ (by simpa using hsave)
    · intro hs
      rw [hsmall hs]
      exact ⟨rfl, rfl⟩
  | PNG =>
    simp only [compressSave, hfv] at hsave
    refine ⟨{ thumbnail img with format := ImgFormat.PNG }, ?_, Or.inr rfl,
      hw8, hh8, hww, hhh, hdist, ?_⟩
    · rw [hcomp]
      exact hgood.2 _ _ (by simpa using hsave)
    · intro hs
      rw [hsmall hs]
      exact ⟨rfl, rfl⟩
  | other =>
    simp only [compressSave, hfv] at hsave
    refine ⟨{ thumbnail img with format := ImgFormat.JPEG }, ?_, Or.inl rfl,
      hw8, hh8, hww, hhh, hdist, ?_⟩
    · rw [hcomp]
      exact hgood.1 _ _ (by simpa using hsave)
    · intro hs
      rw [hsmall hs]
      exact ⟨rfl, rfl⟩

theorem c5_witness_check :
    GoodCodec toyCodec
    ∧ toyCodec.decode [0, 1600, 900]
        = some { width := 1600, height := 900, format := ImgFormat.JPEG }
    ∧ toyCodec.loadOk [0, 1600, 900] = true
    ∧ compressSave toyCodec { width := 1600, height := 900, format := ImgFormat.JPEG }
        = some [0, 800, 450]
    ∧ (∃ out : PILImage,
        toyCodec.decode (compress_image toyCodec [0, 1600, 900]) = some out
        ∧ (out.format = ImgFormat.JPEG ∨ out.format = ImgFormat.PNG)
        ∧ out.width ≤ MAX_IMAGE_DIMENSION ∧ out.height ≤ MAX_IMAGE_DIMENSION
        ∧ out.width ≤ 1600 ∧ out.height ≤ 900
        ∧ (MAX_IMAGE_DIMENSION < max 1600 900 →
            Nat.dist (out.width * 900) (1600 * out.height) < max 1600 900)
        ∧ (max 1600 900 ≤ MAX_IMAGE_DIMENSION →
            out.width = 1600 ∧ out.height = 900)) :=
  ⟨goodCodec_toy, rfl, rfl, rfl,
   c5_normalized_output toyCodec [0, 1600, 900] [0, 800, 450]
     { width := 1600, height := 900, format := ImgFormat.JPEG }
     goodCodec_toy rfl rfl rfl (by decide) (by decide)⟩

/-- C6: switching the input method clears all four derived session
fields, and submitting a new name or image clears all derived fields
while storing the fresh description. -/
theorem c6_session_fully_reset (m : InputMethod) (s : SessionState) (api : PostOutcome)
    (sha : String → String) (name : String) (codec : Codec) (shaB : List Nat → String)
    (fname : String) (bytes : List Nat)
    (hm : s.last_input_method ≠ some m) (hname : name ≠ "")
    (hfile : allowed_file fname = true) :
    methodChangeReset m s
      = { monument_info := none, translated_text := none, audio_kannada := none,
          audio_english := none, last_input_method := some m }
    ∧ nameSubmitHandler api sha s name
      = { monument_info := some (process_monument_name api (sha name) name),
          translated_text := none, audio_kannada := none, audio_english := none,
          last_input_method := some InputMethod.enterName }
    ∧ (imageUploadHandler codec api shaB s fname bytes).1
      = { monument_info := some (process_image codec api (shaB bytes) bytes).1,
          translated_text := none, audio_kannada := none, audio_english := none,
          last_input_method := some InputMethod.uploadImage } := by
  refine ⟨?_, ?_, ?_⟩
  · simp [methodChangeReset, hm]
  · simp [nameSubmitHandler, hname]
  · simp [imageUploadHandler, hfile]

/-- C7: on any speech-engine failure the synthesis operation returns an
absent value, on success it returns the audio (the two are
distinguished by the option type), and the narration handler reacts to
absence by leaving the session unchanged and surfacing its dedicated
inline error message. -/

theorem c6_witness_check :
    (sessionFull.last_input_method ≠ some InputMethod.uploadImage
      ∧ ("Taj Mahal" : String) ≠ "" ∧ allowed_file ("a.png") = true)
    ∧ (methodChangeReset InputMethod.uploadImage sessionFull
        = { monument_info := none, translated_text := none, audio_kannada := none,
            audio_english := none, last_input_method := some InputMethod.uploadImage }
      ∧ nameSubmitHandler api500 shaConst sessionFull ("Taj Mahal")
        = { monument_info := some (process_monument_name api500 (shaConst ("Taj Mahal")) ("Taj Mahal")),
            translated_text := none, audio_kannada := none, audio_english := none,
            last_input_method := some InputMethod.enterName }
      ∧ (imageUploadHandler toyCodec api500 shaBConst sessionFull ("a.png") [0, 2, 2]).1
        = { monument_info := some (process_image toyCodec api500 (shaBConst [0, 2, 2]) [0, 2, 2]).1,
            translated_text := none, audio_kannada := none, audio_english := none,
            last_input_method := some InputMethod.uploadImage }) :=
  ⟨⟨by decide, by decide, by decide⟩,
   c6_session_fully_reset InputMethod.uploadImage sessionFull api500 shaConst
     ("Taj Mahal") toyCodec shaBConst ("a.png") [0, 2, 2]
     (by decide) (by decide) (by decide)⟩

/-- C7: on any speech-engine failure the synthesis operation returns an
absent value, on success it returns the audio (the two are
distinguished by the option type), and the narration handler reacts to
absence by leaving the session unchanged and surfacing its dedicated
inline error message. -/
theorem c7_speech_failure_absent (gtts gtts2 : String → String → Except String (List Nat))
    (sha : String → String) (s : SessionState) (info e th th2 t l : String) (a : List Nat)
    (hs : s.monument_info = some info) (hinfo : info ≠ "")
    (hfail : gtts info "en" = Except.error e)
    (hok : gtts2 t l = Except.ok a) :
    generate_speech gtts th info "en" = none
    ∧ englishNarrationHandler gtts sha s = (s, some ("English narration generation failed."))
    ∧ generate_speech gtts2 th2 t l = some a := by
  refine ⟨?_, ?_, ?_⟩
  · simp [generate_speech, hfail]
  · simp [englishNarrationHandler, hs, hinfo, generate_speech, hfail]
  · simp [generate_speech, hok]

/-- C8: the Kannada narration is synthesized from the translated text:
the stored clip is the speech output for the translation, and it is
unchanged when the original English description is replaced. -/

theorem c7_witness_check :
    (sessionInfo.monument_info = some ("A monument.")
      ∧ gttsBoom ("A monument.") "en" = Except.error ("boom")
      ∧ gttsOk7 ("x") ("kn") = Except.ok [7])
    ∧ (generate_speech gttsBoom ("h") ("A monument.") "en" = none
      ∧ englishNarrationHandler gttsBoom shaConst sessionInfo
          = (sessionInfo, some ("English narration generation failed."))
      ∧ generate_speech gttsOk7 ("h") ("x") ("kn") = some [7]) :=
  ⟨⟨rfl, rfl, rfl⟩,
   c7_speech_failure_absent gttsBoom gttsOk7 shaConst sessionInfo
     ("A monument.") ("boom") ("h") ("h") ("x") ("kn") [7]
     rfl (by decide) rfl rfl⟩

/-- C8: the Kannada narration is synthesized from the translated text:
the stored clip is the speech output for the translation, and it is
unchanged when the original English description is replaced. -/
theorem c8_narration_from_translation (gtts : String → String → Except String (List Nat))
    (sha : String → String) (s : SessionState) (info info2 t : String) (a : List Nat)
    (hs : s.monument_info = some info) (hinfo : info ≠ "")
    (ht : s.translated_text = some t) (htne : t ≠ "")
    (hok : gtts t "kn" = Except.ok a) (hinfo2 : info2 ≠ "") :
    (kannadaNarrationHandler gtts sha s).1.audio_kannada = some a
    ∧ (kannadaNarrationHandler gtts sha { s with monument_info := some info2 }).1.audio_kannada
        = some a := by
  constructor <;>
    simp [kannadaNarrationHandler, hs, hinfo, ht, htne, hinfo2, generate_speech, hok]

/-- C9: an uploaded file whose extension (text after the last dot,
lower-cased) is not an allowed one is rejected with the invalid-file-type
error, the session is untouched, and the endpoint is not contacted. -/

theorem c8_witness_check :
    (sessionTrans.translated_text = some ("kn text")
      ∧ gttsOk7 ("kn text") "kn" = Except.ok [7])
    ∧ ((kannadaNarrationHandler gttsOk7 shaConst sessionTrans).1.audio_kannada = some [7]
      ∧ (kannadaNarrationHandler gttsOk7 shaConst
          { sessionTrans with monument_info := some ("different") }).1.audio_kannada = some [7]) :=
  ⟨⟨rfl, rfl⟩,
   c8_narration_from_translation gttsOk7 shaConst sessionTrans
     ("A monument.") ("different") ("kn text") [7]
     rfl (by decide) rfl (by decide) rfl (by decide)⟩

/-- C9: an uploaded file whose extension (text after the last dot,
lower-cased) is not an allowed one is rejected with the invalid-file-type
error, the session is untouched, and the endpoint is not contacted. -/
theorem c9_disallowed_extension_rejected (codec : Codec) (api : PostOutcome)
    (shaB : List Nat → String) (s : SessionState) (filename : String) (bytes : List Nat)
    (hext : ∀ ext, lastExtAux filename.data = some ext →
        ALLOWED_EXTENSIONS.contains (String.mk (ext.map Char.toLower)) = false) :
    imageUploadHandler codec api shaB s filename bytes
      = (s, false, some ("Invalid file type. Only PNG, JPG, JPEG allowed.")) := by
  have haf : allowed_file filename = false := by
    unfold allowed_file
    cases hl : lastExtAux filename.data with
    | none => rfl
    | some ext => exact hext ext hl
  simp [imageUploadHandler, haf]

theorem c9_witness_check :
    imageUploadHandler toyCodec api500 shaBConst sessionFull ("photo.gif") [0, 2, 2]
      = (sessionFull, false, some ("Invalid file type. Only PNG, JPG, JPEG allowed.")) :=
  c9_disallowed_extension_rejected toyCodec api500 shaBConst sessionFull ("photo.gif") [0, 2, 2]
    (by
      intro ext h
      rw [show lastExtAux ("photo.gif").data = some (['g', 'i', 'f']) from rfl] at h
      injection h with h2
      subst h2
      decide)

/-- C10: on a successful response whose body lacks the choices key the
name-description operation returns its fallback sentence, while a body
with an empty choices list makes the indexing raise, caught and
returned as an Error-prefixed string — two different results. -/
theorem c10_missing_vs_empty_choices (mh name : String) (status : Nat)
    (hst : status < 400) :
    process_monument_name (PostOutcome.resp status (Except.ok { choices := none })) mh name
      = "Sorry, no details found for this monument."
    ∧ process_monument_name (PostOutcome.resp status (Except.ok { choices := some [] })) mh name
      = "Error: list index out of range"
    ∧ beginsWith ("Error:")
        (process_monument_name (PostOutcome.resp status (Except.ok { choices := some [] })) mh name)
        = true
    ∧ process_monument_name (PostOutcome.resp status (Except.ok { choices := none })) mh name
      ≠ process_monument_name (PostOutcome.resp status (Except.ok { choices := some [] })) mh name := by
  have h4 : ¬ (400 ≤ status ∧ status < 600) := by omega
  refine ⟨?_, ?_, ?_, ?_⟩ <;> simp [process_monument_name, extract_info, h4, beginsWith]

/-- Closed witness for `c10_missing_vs_empty_choices` at status 200. -/
theorem c10_missing_vs_empty_choices_witness :
    (200 : Nat) < 400
    ∧ (process_monument_name (PostOutcome.resp 200 (Except.ok { choices := none })) ("h") ("Taj Mahal")
        = "Sorry, no details found for this monument."
      ∧ process_monument_name (PostOutcome.resp 200 (Except.ok { choices := some [] })) ("h") ("Taj Mahal")
        = "Error: list index out of range"
      ∧ beginsWith ("Error:")
          (process_monument_name (PostOutcome.resp 200 (Except.ok { choices := some [] })) ("h") ("Taj Mahal"))
          = true
      ∧ process_monument_name (PostOutcome.resp 200 (Except.ok { choices := none })) ("h") ("Taj Mahal")
        ≠ process_monument_name (PostOutcome.resp 200 (Except.ok { choices := some [] })) ("h") ("Taj Mahal")) :=
  ⟨by decide, c10_missing_vs_empty_choices ("h") ("Taj Mahal") 200 (by decide)⟩

end Monument
